import Mathlib

/-!
Verification of the userbase realtime server core
(`src/userbase-server/server.js`): the main-channel WebSocket message
handler, the forgot-password sub-channel handler, and the heartbeat
sweep, embedded as pure state-transition functions that emit an ordered
list of observable effects (log lines, outbound sends, socket
termination, and calls into the external user/database collaborators).
-/

namespace Userbase

/-- Modelled from the spec: the `statusCodes` module
(`src/userbase-server/statusCodes.js`, not under `src/`) — a fixed
enumeration of response status codes. -/
inductive Status
  | success
  | badRequest
  | unauthorized
  | tooManyRequests
  | internalServerError
deriving DecidableEq

/-- The `data` field of a response envelope: a plain string message, a
retry-delay object, or an arbitrary payload produced by an external
collaborator. -/
inductive RespData
  | str (s : String)
  | retryDelay (ms : Nat)
  | payload (n : Nat)
deriving DecidableEq

/-- A `{status, data}` response envelope. -/
structure Response where
  status : Status
  data : RespData
deriving DecidableEq

/-- Modelled from the spec: `responseBuilder.errorResponse`
(`src/userbase-server/responseBuilder.js`, not under `src/`) — builds a
`{status, data}` error envelope. -/
def errorResponse (status : Status) (data : RespData) : Response :=
  ⟨status, data⟩

/-- Modelled from the spec: the per-connection rate limiter
(`src/userbase-server/ws.js`, not under `src/`): a request budget with a
capacity and a used counter. -/
structure RateLimiter where
  capacity : Nat
  used : Nat
deriving DecidableEq

/-- Modelled from the spec: `conn.rateLimiter.atCapacity()` reports
whether the budget is already exhausted. -/
def RateLimiter.atCapacity (rl : RateLimiter) : Bool :=
  decide (rl.capacity ≤ rl.used)

/-- Modelled from the spec: each counted inbound message consumes one
unit of budget when the limiter is consulted. -/
def RateLimiter.consume (rl : RateLimiter) : RateLimiter :=
  ⟨rl.capacity, rl.used + 1⟩

/-- An outbound WebSocket message. -/
inductive OutMsg
  /-- A plain (non-JSON-envelope) text reply, e.g. `Message is too large`. -/
  | plain (s : String)
  /-- The standard `{requestId, response, route}` envelope (server.js line 230). -/
  | envelope (requestId : String) (response : Response) (route : String)
  /-- The heartbeat probe `{route: Ping}` (line 355). -/
  | ping
  /-- The forgot-password `{route: Error, status, data}` push (lines 313-317). -/
  | errorRoute (status : Status) (data : RespData)
  /-- The forgot-password `{route: SuccessfullyForgotPassword, response}` push (line 321). -/
  | successForgotPassword (response : Response)
deriving DecidableEq

/-- An observable effect of handling one inbound message or one sweep step. -/
inductive Effect
  | logWarn (s : String)
  | logInfo (s : String)
  | logError (s : String)
  | send (m : OutMsg)
  | terminate
  /-- A call into the external `userController` collaborator. -/
  | callUser (op : String)
  /-- A call into the external `db` collaborator (the transaction log). -/
  | callDb (op : String)
  /-- A call into `connections.push` (the connection registry fanout). -/
  | registryPush
deriving DecidableEq

/-- Whether an effect is an operation on an external collaborator
(user controller, database/transaction log, or connection registry). -/
def Effect.isExternalOp : Effect → Bool
  | .callUser _ => true
  | .callDb _ => true
  | .registryPush => true
  | _ => false

/-- A parsed inbound request `{requestId, action, params}`; the params
are consumed only by the external collaborators and are abstracted into
the environment below. -/
structure Request where
  requestId : String
  action : String
deriving DecidableEq

/-- An inbound WebSocket frame: its size in bytes and, when the frame is
valid JSON, the request it parses to (`JSON.parse` at server.js line 114
and line 305 throws on a malformed frame, modelled as `none`). -/
structure WsMsg where
  size : Nat
  parsed : Option Request
deriving DecidableEq

/-- `ONE_KB` (server.js line 22). -/
def ONE_KB : Nat := 1024

/-- `FOUR_HUNDRED_KB`, the main-channel frame size ceiling (line 25). -/
def FOUR_HUNDRED_KB : Nat := 400 * ONE_KB

/-- `FIVE_KB`, the forgot-password frame size ceiling (line 27). -/
def FIVE_KB : Nat := 5 * ONE_KB

/-- Modelled from the spec: the external collaborators `userController`
(`src/userbase-server/user.js`) and `db` (`src/userbase-server/db.js`),
not under `src/`. Each call either returns a response envelope or throws
(`Except.error`); `validateKey` additionally yields the key-validation
flag it leaves on the connection. -/
structure Env where
  signOut : Except Unit Response
  validateKey : Except Unit (Response × Bool)
  updateUser : Except Unit Response
  deleteUser : Except Unit Response
  openDatabase : Except Unit Response
  doCommand : String → Except Unit Response
  batchTransaction : Except Unit Response
  bundleTransactionLog : Except Unit Response
  getPasswordSalts : Except Unit Response
  forgotPassword : Except Unit Response

/-- The per-connection mutable state visible to the main-channel message
handler and the heartbeat sweep: the socket liveness flag `ws.isAlive`,
the key-validation flag `conn.keyValidated`, and the rate-limiter state. -/
structure ConnState where
  isAlive : Bool
  keyValidated : Bool
  rateLimiter : RateLimiter
deriving DecidableEq

/-- The catch-block log of the main-channel handler (server.js line 250). -/
def caughtLog : Effect := .logError "Error in Websocket handling message"

/-- The `Received WebSocket request` log (line 129). -/
def recvLog : Effect := .logInfo "Received WebSocket request"

/-- The `Sent response over WebSocket` log (line 243). -/
def sentLog : Effect := .logInfo "Sent response over WebSocket"

/-- Building, logging and sending the `{requestId, response, route}`
envelope (lines 230-245). -/
def sendEnvelope (req : Request) (r : Response) : List Effect :=
  [sentLog, .send (.envelope req.requestId r req.action)]

/-- The state after one unit of rate-limiter budget has been consumed. -/
def bump (st : ConnState) : ConnState :=
  { st with rateLimiter := st.rateLimiter.consume }

/-- A dispatch branch that awaits an external collaborator call: on a
normal return the response envelope is sent; a thrown error propagates
to the catch block, which logs and sends nothing (lines 247-251). -/
def callBranch (st : ConnState) (req : Request) (callEff : Effect)
    (result : Except Unit Response) : ConnState × List Effect :=
  match result with
  | .ok r => (st, recvLog :: callEff :: sendEnvelope req r)
  | .error _ => (st, [recvLog, callEff, caughtLog])

/-- The counted dispatch of a parsed, in-size, non-`Pong` main-channel
request (server.js lines 127-245): log receipt, consult the rate limiter
(consuming one unit of budget), then either reject with Too Many
Requests or dispatch on the action name in the current key-validation
state. -/
def counted (env : Env) (st : ConnState) (req : Request) :
    ConnState × List Effect :=
  if st.rateLimiter.atCapacity then
    (bump st,
     recvLog :: sendEnvelope req (errorResponse .tooManyRequests (.retryDelay 1000)))
  else if req.action = "SignOut" then
    callBranch (bump st) req (.callUser "signOut") env.signOut
  else if st.keyValidated = false then
    if req.action = "ValidateKey" then
      match env.validateKey with
      | .ok rkv =>
          ({ bump st with keyValidated := rkv.2 },
           recvLog :: .callUser "validateKey" :: sendEnvelope req rkv.1)
      | .error _ => (bump st, [recvLog, .callUser "validateKey", caughtLog])
    else
      (bump st,
       recvLog :: sendEnvelope req (errorResponse .unauthorized (.str "Key not validated")))
  else if req.action = "ValidateKey" then
    (bump st,
     recvLog :: sendEnvelope req (errorResponse .badRequest (.str "Already validated key")))
  else if req.action = "UpdateUser" then
    callBranch (bump st) req (.callUser "updateUser") env.updateUser
  else if req.action = "DeleteUser" then
    callBranch (bump st) req (.callUser "deleteUserController") env.deleteUser
  else if req.action = "OpenDatabase" then
    callBranch (bump st) req (.callDb "openDatabase") env.openDatabase
  else if req.action = "Insert" ∨ req.action = "Update" ∨ req.action = "Delete" then
    callBranch (bump st) req (.callDb "doCommand") (env.doCommand req.action)
  else if req.action = "BatchTransaction" then
    callBranch (bump st) req (.callDb "batchTransaction") env.batchTransaction
  else if req.action = "Bundle" then
    callBranch (bump st) req (.callDb "bundleTransactionLog") env.bundleTransactionLog
  else if req.action = "GetPasswordSalts" then
    callBranch (bump st) req (.callUser "getPasswordSaltsByUserId") env.getPasswordSalts
  else
    (bump st,
     [recvLog, .logError "Received unknown action over WebSocket",
      .send (.plain ("Received unkown action " ++ req.action))])

/-- The main-channel `message` handler (server.js lines 100-253):
set `ws.isAlive = true`, reject oversized frames with a plain
diagnostic, let a malformed frame throw into the catch block, answer a
`Pong` with nothing but the heartbeat, and otherwise run the counted
dispatch. -/
def handleMessage (env : Env) (st : ConnState) (msg : WsMsg) :
    ConnState × List Effect :=
  if FOUR_HUNDRED_KB < msg.size then
    ({ st with isAlive := true },
     [.logWarn "Received large message", .send (.plain "Message is too large")])
  else
    match msg.parsed with
    | none => ({ st with isAlive := true }, [caughtLog])
    | some req =>
        if req.action = "Pong" then
          ({ st with isAlive := true }, [])
        else
          counted env { st with isAlive := true } req

/-- The actions the main channel recognizes (server.js lines 122-219). -/
def recognizedActions : List String :=
  ["Pong", "SignOut", "ValidateKey", "UpdateUser", "DeleteUser", "OpenDatabase",
   "Insert", "Update", "Delete", "BatchTransaction", "Bundle", "GetPasswordSalts"]

/-- The catch-block log of the forgot-password handler (server.js line 344). -/
def fpCaughtLog : Effect := .logError "Error in forgot-password Websocket"

/-- The effects of the forgot-password `message` handler (server.js
lines 298-346): reject frames over 5 KB with a plain diagnostic; a
malformed frame throws in `JSON.parse` and is caught and logged; a
`ForgotPassword` action calls the user controller and on a handled
failure or success pushes a routed message and terminates; any other
action throws `Received unknown message`, which the catch block logs.
The handler never writes `ws.isAlive`. -/
def fpMessageEffects (env : Env) (msg : WsMsg) : List Effect :=
  if FIVE_KB < msg.size then
    [.logWarn "Received large message over forgot-password",
     .send (.plain "Message is too large")]
  else
    match msg.parsed with
    | none => [fpCaughtLog]
    | some req =>
        if req.action = "ForgotPassword" then
          match env.forgotPassword with
          | .ok r =>
              if r.status ≠ Status.success then
                [.callUser "forgotPassword", .send (.errorRoute r.status r.data),
                 .terminate]
              else
                [.callUser "forgotPassword", .logInfo "Forgot password finished",
                 .send (.successForgotPassword r), .terminate]
          | .error _ => [.callUser "forgotPassword", fpCaughtLog]
        else
          [fpCaughtLog]

/-- The state of a forgot-password socket visible to the heartbeat
sweep: only the `ws.isAlive` flag. -/
structure FpState where
  isAlive : Bool
deriving DecidableEq

/-- A forgot-password socket opens with `ws.isAlive = true` (server.js
line 260); this is the only write to the flag on this channel. -/
def fpOpen : FpState := ⟨true⟩

/-- The forgot-password message handler as a state transition: it emits
`fpMessageEffects` and leaves `ws.isAlive` untouched (no line of the
handler, lines 298-346, writes it). -/
def fpHandleMessage (env : Env) (st : FpState) (msg : WsMsg) :
    FpState × List Effect :=
  (st, fpMessageEffects env msg)

/-- One heartbeat sweep step on a single socket (server.js lines
351-356): a socket whose `isAlive` flag is false is terminated;
otherwise the flag is set to false and a `{route: Ping}` probe is sent.
Returns the new flag value and the effects. -/
def pingSweep (isAlive : Bool) : Bool × List Effect :=
  if isAlive = false then (isAlive, [.terminate])
  else (false, [.send .ping])

/-- The heartbeat sweep step acting on a main-channel connection. -/
def sweepConn (st : ConnState) : ConnState × List Effect :=
  ({ st with isAlive := (pingSweep st.isAlive).1 }, (pingSweep st.isAlive).2)

/-- The heartbeat sweep step acting on a forgot-password socket. -/
def sweepFp (st : FpState) : FpState × List Effect :=
  (⟨(pingSweep st.isAlive).1⟩, (pingSweep st.isAlive).2)

/-- Processing a run of inbound main-channel messages, tracking only the
resulting connection state. -/
def runMsgs (env : Env) (st : ConnState) (msgs : List WsMsg) : ConnState :=
  msgs.foldl (fun s m => (handleMessage env s m).1) st

/-- Processing a run of inbound forgot-password messages, tracking only
the resulting socket state. -/
def fpRunMsgs (env : Env) (st : FpState) (msgs : List WsMsg) : FpState :=
  msgs.foldl (fun s m => (fpHandleMessage env s m).1) st

/-- A response used by the concrete test environments. -/
def okResp : Response := ⟨.success, .payload 0⟩

/-- A concrete environment in which every external call returns
normally. -/
def envOk : Env where
  signOut := .ok okResp
  validateKey := .ok (okResp, true)
  updateUser := .ok okResp
  deleteUser := .ok okResp
  openDatabase := .ok okResp
  doCommand := fun _ => .ok okResp
  batchTransaction := .ok okResp
  bundleTransactionLog := .ok okResp
  getPasswordSalts := .ok okResp
  forgotPassword := .ok okResp

/-- A concrete environment in which every external call throws. -/
def envThrow : Env where
  signOut := .error ()
  validateKey := .error ()
  updateUser := .error ()
  deleteUser := .error ()
  openDatabase := .error ()
  doCommand := fun _ => .error ()
  batchTransaction := .error ()
  bundleTransactionLog := .error ()
  getPasswordSalts := .error ()
  forgotPassword := .error ()

/-- Whether the dispatch of action `a` in key-validation state `kv`
reaches an external collaborator call that throws in environment `env`
(the throwing calls of server.js lines 137-218). -/
def dispatchThrows (env : Env) (kv : Bool) (a : String) : Prop :=
  (a = "SignOut" ∧ env.signOut = .error ()) ∨
  (kv = false ∧ a = "ValidateKey" ∧ env.validateKey = .error ()) ∨
  (kv = true ∧
    ((a = "UpdateUser" ∧ env.updateUser = .error ()) ∨
     (a = "DeleteUser" ∧ env.deleteUser = .error ()) ∨
     (a = "OpenDatabase" ∧ env.openDatabase = .error ()) ∨
     ((a = "Insert" ∨ a = "Update" ∨ a = "Delete") ∧ env.doCommand a = .error ()) ∨
     (a = "BatchTransaction" ∧ env.batchTransaction = .error ()) ∨
     (a = "Bundle" ∧ env.bundleTransactionLog = .error ()) ∨
     (a = "GetPasswordSalts" ∧ env.getPasswordSalts = .error ())))

/-! ### Structural lemmas -/

theorem counted_core (env : Env) (st : ConnState) (req : Request) :
    ((counted env st req).1).rateLimiter = st.rateLimiter.consume ∧
    ((counted env st req).1).isAlive = st.isAlive ∧
    Effect.terminate ∉ (counted env st req).2 := by
  unfold counted
  by_cases c1 : st.rateLimiter.atCapacity = true
  · rw [if_pos c1]
    exact ⟨rfl, rfl, by simp [sendEnvelope, recvLog, sentLog]⟩
  rw [if_neg c1]
  by_cases c2 : req.action = "SignOut"
  · rw [if_pos c2]
    cases hs : env.signOut with
    | error e => exact ⟨rfl, rfl, by simp [callBranch, caughtLog, recvLog]⟩
    | ok r => exact ⟨rfl, rfl, by simp [callBranch, sendEnvelope, recvLog, sentLog]⟩
  rw [if_neg c2]
  by_cases c3 : st.keyValidated = false
  · rw [if_pos c3]
    by_cases c4 : req.action = "ValidateKey"
    · rw [if_pos c4]
      cases hs : env.validateKey with
      | error e => exact ⟨rfl, rfl, by simp [caughtLog, recvLog]⟩
      | ok rkv => exact ⟨rfl, rfl, by simp [sendEnvelope, recvLog, sentLog]⟩
    · rw [if_neg c4]
      exact ⟨rfl, rfl, by simp [sendEnvelope, recvLog, sentLog]⟩
  rw [if_neg c3]
  by_cases c5 : req.action = "ValidateKey"
  · rw [if_pos c5]
    exact ⟨rfl, rfl, by simp [sendEnvelope, recvLog, sentLog]⟩
  rw [if_neg c5]
  by_cases c6 : req.action = "UpdateUser"
  · rw [if_pos c6]
    cases hs : env.updateUser with
    | error e => exact ⟨rfl, rfl, by simp [callBranch, caughtLog, recvLog]⟩
    | ok r => exact ⟨rfl, rfl, by simp [callBranch, sendEnvelope, recvLog, sentLog]⟩
  rw [if_neg c6]
  by_cases c7 : req.action = "DeleteUser"
  · rw [if_pos c7]
    cases hs : env.deleteUser with
    | error e => exact ⟨rfl, rfl, by simp [callBranch, caughtLog, recvLog]⟩
    | ok r => exact ⟨rfl, rfl, by simp [callBranch, sendEnvelope, recvLog, sentLog]⟩
  rw [if_neg c7]
  by_cases c8 : req.action = "OpenDatabase"
  · rw [if_pos c8]
    cases hs : env.openDatabase with
    | error e => exact ⟨rfl, rfl, by simp [callBranch, caughtLog, recvLog]⟩
    | ok r => exact ⟨rfl, rfl, by simp [callBranch, sendEnvelope, recvLog, sentLog]⟩
  rw [if_neg c8]
  by_cases c9 : req.action = "Insert" ∨ req.action = "Update" ∨ req.action = "Delete"
  · rw [if_pos c9]
    cases hs : env.doCommand req.action with
    | error e => exact ⟨rfl, rfl, by simp [callBranch, caughtLog, recvLog]⟩
    | ok r => exact ⟨rfl, rfl, by simp [callBranch, sendEnvelope, recvLog, sentLog]⟩
  rw [if_neg c9]
  by_cases c10 : req.action = "BatchTransaction"
  · rw [if_pos c10]
    cases hs : env.batchTransaction with
    | error e => exact ⟨rfl, rfl, by simp [callBranch, caughtLog, recvLog]⟩
    | ok r => exact ⟨rfl, rfl, by simp [callBranch, sendEnvelope, recvLog, sentLog]⟩
  rw [if_neg c10]
  by_cases c11 : req.action = "Bundle"
  · rw [if_pos c11]
    cases hs : env.bundleTransactionLog with
    | error e => exact ⟨rfl, rfl, by simp [callBranch, caughtLog, recvLog]⟩
    | ok r => exact ⟨rfl, rfl, by simp [callBranch, sendEnvelope, recvLog, sentLog]⟩
  rw [if_neg c11]
  by_cases c12 : req.action = "GetPasswordSalts"
  · rw [if_pos c12]
    cases hs : env.getPasswordSalts with
    | error e => exact ⟨rfl, rfl, by simp [callBranch, caughtLog, recvLog]⟩
    | ok r => exact ⟨rfl, rfl, by simp [callBranch, sendEnvelope, recvLog, sentLog]⟩
  rw [if_neg c12]
  exact ⟨rfl, rfl, by simp [recvLog]⟩

theorem counted_fst_rateLimiter (env : Env) (st : ConnState) (req : Request) :
    ((counted env st req).1).rateLimiter = st.rateLimiter.consume :=
  (counted_core env st req).1

theorem counted_fst_isAlive (env : Env) (st : ConnState) (req : Request) :
    ((counted env st req).1).isAlive = st.isAlive :=
  (counted_core env st req).2.1

theorem counted_noTerminate (env : Env) (st : ConnState) (req : Request) :
    Effect.terminate ∉ (counted env st req).2 :=
  (counted_core env st req).2.2

theorem handleMessage_oversized (env : Env) (st : ConnState) (sz : Nat)
    (p : Option Request) (h : FOUR_HUNDRED_KB < sz) :
    handleMessage env st ⟨sz, p⟩ =
      ({ st with isAlive := true },
       [.logWarn "Received large message", .send (.plain "Message is too large")]) := by
  unfold handleMessage
  dsimp only
  rw [if_pos h]

theorem handleMessage_malformed (env : Env) (st : ConnState) (sz : Nat)
    (h : sz ≤ FOUR_HUNDRED_KB) :
    handleMessage env st ⟨sz, none⟩ = ({ st with isAlive := true }, [caughtLog]) := by
  unfold handleMessage
  dsimp only
  rw [if_neg (by omega : ¬ FOUR_HUNDRED_KB < sz)]

theorem handleMessage_pong (env : Env) (st : ConnState) (sz : Nat) (req : Request)
    (h : sz ≤ FOUR_HUNDRED_KB) (hp : req.action = "Pong") :
    handleMessage env st ⟨sz, some req⟩ = ({ st with isAlive := true }, []) := by
  unfold handleMessage
  dsimp only
  rw [if_neg (by omega : ¬ FOUR_HUNDRED_KB < sz), if_pos hp]

theorem handleMessage_counted (env : Env) (st : ConnState) (sz : Nat) (req : Request)
    (h : sz ≤ FOUR_HUNDRED_KB) (hp : req.action ≠ "Pong") :
    handleMessage env st ⟨sz, some req⟩ = counted env { st with isAlive := true } req := by
  unfold handleMessage
  dsimp only
  rw [if_neg (by omega : ¬ FOUR_HUNDRED_KB < sz), if_neg hp]

theorem handleMessage_fst_isAlive (env : Env) (st : ConnState) (msg : WsMsg) :
    ((handleMessage env st msg).1).isAlive = true := by
  unfold handleMessage
  repeat' split
  · rfl
  · rfl
  · rfl
  · rw [counted_fst_isAlive]

theorem handleMessage_noTerminate (env : Env) (st : ConnState) (msg : WsMsg) :
    Effect.terminate ∉ (handleMessage env st msg).2 := by
  unfold handleMessage
  repeat' split
  · simp [caughtLog]
  · simp [caughtLog]
  · simp
  · exact counted_noTerminate _ _ _

theorem counted_atCapacity (env : Env) (st : ConnState) (req : Request)
    (h : st.rateLimiter.atCapacity = true) :
    counted env st req =
      (bump st,
       recvLog :: sendEnvelope req (errorResponse .tooManyRequests (.retryDelay 1000))) := by
  unfold counted
  rw [if_pos h]

theorem counted_unvalidated_reject (env : Env) (st : ConnState) (req : Request)
    (hcap : st.rateLimiter.atCapacity = false) (hkv : st.keyValidated = false)
    (h1 : req.action ≠ "SignOut") (h2 : req.action ≠ "ValidateKey") :
    counted env st req =
      (bump st,
       recvLog :: sendEnvelope req (errorResponse .unauthorized (.str "Key not validated"))) := by
  unfold counted
  rw [if_neg (by simp [hcap]), if_neg h1, if_pos hkv, if_neg h2]

theorem counted_validated_validateKey (env : Env) (st : ConnState) (req : Request)
    (hcap : st.rateLimiter.atCapacity = false) (hkv : st.keyValidated = true)
    (ha : req.action = "ValidateKey") :
    counted env st req =
      (bump st,
       recvLog :: sendEnvelope req (errorResponse .badRequest (.str "Already validated key"))) := by
  unfold counted
  rw [if_neg (by simp [hcap]), if_neg (by rw [ha]; decide), if_neg (by simp [hkv]),
    if_pos ha]

theorem counted_unknown (env : Env) (st : ConnState) (req : Request)
    (hcap : st.rateLimiter.atCapacity = false) (hkv : st.keyValidated = true)
    (h : req.action ∉ recognizedActions) :
    counted env st req =
      (bump st,
       [recvLog, .logError "Received unknown action over WebSocket",
        .send (.plain ("Received unkown action " ++ req.action))]) := by
  simp only [recognizedActions, List.mem_cons, List.not_mem_nil, or_false, not_or] at h
  obtain ⟨hPong, hSO, hVK, hUU, hDU, hOD, hIns, hUpd, hDel, hBT, hB, hGPS⟩ := h
  unfold counted
  rw [if_neg (by simp [hcap]), if_neg hSO, if_neg (by simp [hkv]), if_neg hVK,
    if_neg hUU, if_neg hDU, if_neg hOD, if_neg (by simp [hIns, hUpd, hDel]),
    if_neg hBT, if_neg hB, if_neg hGPS]

theorem ne_of_eq_lit {a b c : String} (h : a = b) (hne : b ≠ c) : ¬a = c := by
  rw [h]; exact hne

theorem counted_throws (env : Env) (st : ConnState) (req : Request)
    (hcap : st.rateLimiter.atCapacity = false)
    (hthrow : dispatchThrows env st.keyValidated req.action) :
    ∃ c : Effect, c.isExternalOp = true ∧
      (counted env st req).2 = [recvLog, c, caughtLog] := by
  unfold counted
  rw [if_neg (show ¬st.rateLimiter.atCapacity = true by simp [hcap])]
  rcases hthrow with ⟨ha, he⟩ | ⟨hkv, ha, he⟩ | ⟨hkv, hrest⟩
  · rw [if_pos ha, he]
    exact ⟨.callUser "signOut", rfl, rfl⟩
  · rw [if_neg (ne_of_eq_lit ha (by decide)), if_pos hkv, if_pos ha, he]
    exact ⟨.callUser "validateKey", rfl, rfl⟩
  · have hkv3 : ¬st.keyValidated = false := by simp [hkv]
    rcases hrest with ⟨ha, he⟩ | ⟨ha, he⟩ | ⟨ha, he⟩ | ⟨ha, he⟩ | ⟨ha, he⟩ | ⟨ha, he⟩ |
      ⟨ha, he⟩
    · rw [if_neg (ne_of_eq_lit ha (by decide)), if_neg hkv3,
        if_neg (ne_of_eq_lit ha (by decide)), if_pos ha, he]
      exact ⟨.callUser "updateUser", rfl, rfl⟩
    · rw [if_neg (ne_of_eq_lit ha (by decide)), if_neg hkv3,
        if_neg (ne_of_eq_lit ha (by decide)), if_neg (ne_of_eq_lit ha (by decide)),
        if_pos ha, he]
      exact ⟨.callUser "deleteUserController", rfl, rfl⟩
    · rw [if_neg (ne_of_eq_lit ha (by decide)), if_neg hkv3,
        if_neg (ne_of_eq_lit ha (by decide)), if_neg (ne_of_eq_lit ha (by decide)),
        if_neg (ne_of_eq_lit ha (by decide)), if_pos ha, he]
      exact ⟨.callDb "openDatabase", rfl, rfl⟩
    · have hne : ∀ s : String, "Insert" ≠ s → "Update" ≠ s → "Delete" ≠ s →
          ¬req.action = s := by
        intro s h1 h2 h3 hc
        rcases ha with h | h | h
        · exact h1 (h ▸ hc)
        · exact h2 (h ▸ hc)
        · exact h3 (h ▸ hc)
      rw [if_neg (hne "SignOut" (by decide) (by decide) (by decide)), if_neg hkv3,
        if_neg (hne "ValidateKey" (by decide) (by decide) (by decide)),
        if_neg (hne "UpdateUser" (by decide) (by decide) (by decide)),
        if_neg (hne "DeleteUser" (by decide) (by decide) (by decide)),
        if_neg (hne "OpenDatabase" (by decide) (by decide) (by decide)),
        if_pos ha, he]
      exact ⟨.callDb "doCommand", rfl, rfl⟩
    · rw [if_neg (ne_of_eq_lit ha (by decide)), if_neg hkv3,
        if_neg (ne_of_eq_lit ha (by decide)), if_neg (ne_of_eq_lit ha (by decide)),
        if_neg (ne_of_eq_lit ha (by decide)), if_neg (ne_of_eq_lit ha (by decide)),
        if_neg (show ¬(req.action = "Insert" ∨ req.action = "Update" ∨
          req.action = "Delete") by
            simp [ne_of_eq_lit ha (show "BatchTransaction" ≠ "Insert" by decide),
              ne_of_eq_lit ha (show "BatchTransaction" ≠ "Update" by decide),
              ne_of_eq_lit ha (show "BatchTransaction" ≠ "Delete" by decide)]),
        if_pos ha, he]
      exact ⟨.callDb "batchTransaction", rfl, rfl⟩
    · rw [if_neg (ne_of_eq_lit ha (by decide)), if_neg hkv3,
        if_neg (ne_of_eq_lit ha (by decide)), if_neg (ne_of_eq_lit ha (by decide)),
        if_neg (ne_of_eq_lit ha (by decide)), if_neg (ne_of_eq_lit ha (by decide)),
        if_neg (show ¬(req.action = "Insert" ∨ req.action = "Update" ∨
          req.action = "Delete") by
            simp [ne_of_eq_lit ha (show "Bundle" ≠ "Insert" by decide),
              ne_of_eq_lit ha (show "Bundle" ≠ "Update" by decide),
              ne_of_eq_lit ha (show "Bundle" ≠ "Delete" by decide)]),
        if_neg (ne_of_eq_lit ha (by decide)), if_pos ha, he]
      exact ⟨.callDb "bundleTransactionLog", rfl, rfl⟩
    · rw [if_neg (ne_of_eq_lit ha (by decide)), if_neg hkv3,
        if_neg (ne_of_eq_lit ha (by decide)), if_neg (ne_of_eq_lit ha (by decide)),
        if_neg (ne_of_eq_lit ha (by decide)), if_neg (ne_of_eq_lit ha (by decide)),
        if_neg (show ¬(req.action = "Insert" ∨ req.action = "Update" ∨
          req.action = "Delete") by
            simp [ne_of_eq_lit ha (show "GetPasswordSalts" ≠ "Insert" by decide),
              ne_of_eq_lit ha (show "GetPasswordSalts" ≠ "Update" by decide),
              ne_of_eq_lit ha (show "GetPasswordSalts" ≠ "Delete" by decide)]),
        if_neg (ne_of_eq_lit ha (by decide)), if_neg (ne_of_eq_lit ha (by decide)),
        if_pos ha, he]
      exact ⟨.callUser "getPasswordSaltsByUserId", rfl, rfl⟩

theorem runMsgs_isAlive (env : Env) (msgs : List WsMsg) :
    ∀ st : ConnState, msgs ≠ [] → (runMsgs env st msgs).isAlive = true := by
  induction msgs with
  | nil => intro st h; exact absurd rfl h
  | cons m rest ih =>
      intro st _
      by_cases hr : rest = []
      · subst hr
        exact handleMessage_fst_isAlive env st m
      · exact ih (handleMessage env st m).1 hr

theorem fpRunMsgs_eq (env : Env) (msgs : List WsMsg) :
    ∀ st : FpState, fpRunMsgs env st msgs = st := by
  induction msgs with
  | nil => intro st; rfl
  | cons m rest ih => intro st; exact ih st

theorem sweepConn_snd_of_alive (st : ConnState) (h : st.isAlive = true) :
    (sweepConn st).2 = [.send .ping] := by
  obtain ⟨a, k, rl⟩ := st
  cases h
  rfl

theorem fpMessage_oversized (env : Env) (sz : Nat) (p : Option Request)
    (h : FIVE_KB < sz) :
    fpMessageEffects env ⟨sz, p⟩ =
      [.logWarn "Received large message over forgot-password",
       .send (.plain "Message is too large")] := by
  unfold fpMessageEffects
  dsimp only
  rw [if_pos h]

theorem fpMessage_malformed (env : Env) (sz : Nat) (h : sz ≤ FIVE_KB) :
    fpMessageEffects env ⟨sz, none⟩ = [fpCaughtLog] := by
  unfold fpMessageEffects
  dsimp only
  rw [if_neg (by omega : ¬FIVE_KB < sz)]

theorem fpMessage_unknown (env : Env) (sz : Nat) (req : Request)
    (h : sz ≤ FIVE_KB) (ha : req.action ≠ "ForgotPassword") :
    fpMessageEffects env ⟨sz, some req⟩ = [fpCaughtLog] := by
  unfold fpMessageEffects
  dsimp only
  rw [if_neg (by omega : ¬FIVE_KB < sz), if_neg ha]

/-! ### Claim theorems -/

/-- C1: on the main channel, a counted message (in-size, parsed, non-`Pong`,
under the rate cap) on an Unvalidated connection with any action other than
`ValidateKey`/`SignOut` is answered with an Unauthorized response
(`Key not validated`) and invokes no user-controller, database or registry
operation; on a Validated connection, a `ValidateKey` action is answered
with a Bad Request response (`Already validated key`) and likewise invokes
no external operation. -/
theorem c1_key_validation_gate :
    ∀ (env : Env) (st : ConnState) (sz : Nat) (req : Request),
      sz ≤ FOUR_HUNDRED_KB →
      st.rateLimiter.atCapacity = false →
      ((st.keyValidated = false →
        req.action ∉ (["Pong", "ValidateKey", "SignOut"] : List String) →
        handleMessage env st ⟨sz, some req⟩ =
          (bump { st with isAlive := true },
           recvLog ::
             sendEnvelope req (errorResponse .unauthorized (.str "Key not validated"))) ∧
        ∀ e ∈ (handleMessage env st ⟨sz, some req⟩).2, e.isExternalOp = false) ∧
       (st.keyValidated = true →
        req.action = "ValidateKey" →
        handleMessage env st ⟨sz, some req⟩ =
          (bump { st with isAlive := true },
           recvLog ::
             sendEnvelope req (errorResponse .badRequest (.str "Already validated key"))) ∧
        ∀ e ∈ (handleMessage env st ⟨sz, some req⟩).2, e.isExternalOp = false)) := by
  intro env st sz req hsz hcap
  constructor
  · intro hkv hnot
    simp only [List.mem_cons, List.not_mem_nil, or_false, not_or] at hnot
    obtain ⟨h1, h2, h3⟩ := hnot
    have hc := handleMessage_counted env st sz req hsz h1
    have he := counted_unvalidated_reject env { st with isAlive := true } req hcap hkv h3 h2
    refine ⟨by rw [hc, he], ?_⟩
    rw [hc, he]
    simp [sendEnvelope, recvLog, sentLog, Effect.isExternalOp]
  · intro hkv ha
    have h1 : req.action ≠ "Pong" := ne_of_eq_lit ha (by decide)
    have hc := handleMessage_counted env st sz req hsz h1
    have he := counted_validated_validateKey env { st with isAlive := true } req hcap hkv ha
    refine ⟨by rw [hc, he], ?_⟩
    rw [hc, he]
    simp [sendEnvelope, recvLog, sentLog, Effect.isExternalOp]

/-- Witness for C1 at concrete inputs: an Unvalidated connection issuing
`Insert` gets Unauthorized; a Validated connection issuing `ValidateKey`
gets Bad Request. -/
theorem c1_key_validation_gate_witness :
    handleMessage envOk ⟨true, false, ⟨10, 0⟩⟩ ⟨50, some ⟨"r1", "Insert"⟩⟩ =
      (⟨true, false, ⟨10, 1⟩⟩,
       recvLog ::
         sendEnvelope ⟨"r1", "Insert"⟩ (errorResponse .unauthorized (.str "Key not validated"))) ∧
    handleMessage envOk ⟨true, true, ⟨10, 0⟩⟩ ⟨50, some ⟨"r2", "ValidateKey"⟩⟩ =
      (⟨true, true, ⟨10, 1⟩⟩,
       recvLog ::
         sendEnvelope ⟨"r2", "ValidateKey"⟩ (errorResponse .badRequest (.str "Already validated key"))) :=
  ⟨((c1_key_validation_gate envOk ⟨true, false, ⟨10, 0⟩⟩ 50 ⟨"r1", "Insert"⟩
      (by decide) rfl).1 rfl (by decide)).1,
   ((c1_key_validation_gate envOk ⟨true, true, ⟨10, 0⟩⟩ 50 ⟨"r2", "ValidateKey"⟩
      (by decide) rfl).2 rfl rfl).1⟩

/-- C2 counterexample: a malformed (unparsable) frame does NOT consume a
unit of rate-limiter budget — `JSON.parse` throws at server.js line 114,
before the limiter is consulted at line 131, and the error is caught and
logged; the limiter state is unchanged. -/
theorem c2_malformed_counterexample :
    (handleMessage envOk ⟨true, true, ⟨10, 3⟩⟩ ⟨100, none⟩).1.rateLimiter = ⟨10, 3⟩ ∧
    (handleMessage envOk ⟨true, true, ⟨10, 3⟩⟩ ⟨100, none⟩).2 = [caughtLog] :=
  ⟨rfl, rfl⟩

/-- C2 amended: every counted inbound main-channel message that parses as
JSON and is not `Pong` consumes one unit of budget regardless of outcome
(unknown-action frames included); a malformed frame throws before the
limiter is consulted and consumes no budget. -/
theorem c2_budget_consumption :
    (∀ (env : Env) (st : ConnState) (sz : Nat) (req : Request),
      sz ≤ FOUR_HUNDRED_KB → req.action ≠ "Pong" →
      (handleMessage env st ⟨sz, some req⟩).1.rateLimiter = st.rateLimiter.consume) ∧
    (∀ (env : Env) (st : ConnState) (msg : WsMsg), msg.parsed = none →
      (handleMessage env st msg).1.rateLimiter = st.rateLimiter) := by
  constructor
  · intro env st sz req hsz hp
    rw [handleMessage_counted env st sz req hsz hp]
    exact counted_fst_rateLimiter env { st with isAlive := true } req
  · intro env st msg hp
    obtain ⟨sz, p⟩ := msg
    cases hp
    by_cases hsz : FOUR_HUNDRED_KB < sz
    · rw [handleMessage_oversized env st sz none hsz]
    · rw [handleMessage_malformed env st sz (by omega)]

/-- Witness for C2 amended: an unknown-action frame consumes one unit; a
malformed frame consumes none. -/
theorem c2_budget_consumption_witness :
    (handleMessage envOk ⟨true, true, ⟨10, 0⟩⟩ ⟨60, some ⟨"r1", "Foo"⟩⟩).1.rateLimiter =
      ⟨10, 1⟩ ∧
    (handleMessage envOk ⟨true, true, ⟨10, 0⟩⟩ ⟨60, none⟩).1.rateLimiter = ⟨10, 0⟩ :=
  ⟨c2_budget_consumption.1 envOk ⟨true, true, ⟨10, 0⟩⟩ 60 ⟨"r1", "Foo"⟩ (by decide)
      (by decide),
   c2_budget_consumption.2 envOk ⟨true, true, ⟨10, 0⟩⟩ ⟨60, none⟩ rfl⟩

/-- C3 counterexample: an oversized frame whose JSON content is a `Pong`
action IS answered with a response (the plain size diagnostic), because
the size gate at server.js line 109 runs before the `Pong` check at line
122 — refuting the claim that no response is ever sent for a Pong frame. -/
theorem c3_oversized_pong_counterexample :
    Effect.send (.plain "Message is too large") ∈
      (handleMessage envOk ⟨true, true, ⟨10, 0⟩⟩
        ⟨FOUR_HUNDRED_KB + 1, some ⟨"r1", "Pong"⟩⟩).2 := by
  rw [handleMessage_oversized envOk ⟨true, true, ⟨10, 0⟩⟩ (FOUR_HUNDRED_KB + 1)
    (some ⟨"r1", "Pong"⟩) (by omega)]
  simp

/-- C3 amended: for every main-channel frame within the 400 KB ceiling
whose action is `Pong`, the liveness flag is set to true, the rate
limiter is not consulted and no budget is consumed, and no response is
sent — in both key-validation states (the state is otherwise unchanged). -/
theorem c3_pong_bypass :
    ∀ (env : Env) (st : ConnState) (sz : Nat) (req : Request),
      sz ≤ FOUR_HUNDRED_KB → req.action = "Pong" →
      handleMessage env st ⟨sz, some req⟩ = ({ st with isAlive := true }, []) :=
  handleMessage_pong

/-- Witness for C3 amended: a `Pong` frame on a connection whose limiter
is at capacity still bypasses the limiter, resets liveness, and gets no
reply. -/
theorem c3_pong_bypass_witness :
    handleMessage envOk ⟨false, false, ⟨5, 5⟩⟩ ⟨10, some ⟨"r1", "Pong"⟩⟩ =
      (⟨true, false, ⟨5, 5⟩⟩, []) :=
  c3_pong_bypass envOk ⟨false, false, ⟨5, 5⟩⟩ 10 ⟨"r1", "Pong"⟩ (by decide) rfl

/-- C4: a counted main-channel action arriving while the rate limiter is
at capacity is answered with a Too Many Requests error carrying
`retryDelay = 1000`, and no user-controller, database or registry
operation is invoked. -/
theorem c4_too_many_requests :
    ∀ (env : Env) (st : ConnState) (sz : Nat) (req : Request),
      sz ≤ FOUR_HUNDRED_KB → req.action ≠ "Pong" →
      st.rateLimiter.atCapacity = true →
      (handleMessage env st ⟨sz, some req⟩).2 =
        recvLog :: sendEnvelope req (errorResponse .tooManyRequests (.retryDelay 1000)) ∧
      ∀ e ∈ (handleMessage env st ⟨sz, some req⟩).2, e.isExternalOp = false := by
  intro env st sz req hsz hp hcap
  have hc := handleMessage_counted env st sz req hsz hp
  have he := counted_atCapacity env { st with isAlive := true } req hcap
  refine ⟨by rw [hc, he], ?_⟩
  rw [hc, he]
  simp [sendEnvelope, recvLog, sentLog, Effect.isExternalOp]

/-- Witness for C4: an `Insert` on a connection whose budget is exhausted
is rejected with Too Many Requests and `retryDelay = 1000`. -/
theorem c4_too_many_requests_witness :
    (handleMessage envOk ⟨true, true, ⟨2, 2⟩⟩ ⟨40, some ⟨"r1", "Insert"⟩⟩).2 =
      recvLog ::
        sendEnvelope ⟨"r1", "Insert"⟩ (errorResponse .tooManyRequests (.retryDelay 1000)) ∧
    ∀ e ∈ (handleMessage envOk ⟨true, true, ⟨2, 2⟩⟩ ⟨40, some ⟨"r1", "Insert"⟩⟩).2,
      e.isExternalOp = false :=
  c4_too_many_requests envOk ⟨true, true, ⟨2, 2⟩⟩ 40 ⟨"r1", "Insert"⟩ (by decide)
    (by decide) rfl

/-- C5: a main-channel frame larger than 400 KB is answered with the plain
(non-envelope) diagnostic `Message is too large`, its content is never
examined (the result is the same for every possible parse of the frame,
so no action handler runs), and the rate-limiter budget is unchanged. -/
theorem c5_oversized_frame :
    ∀ (env : Env) (st : ConnState) (sz : Nat) (p : Option Request),
      FOUR_HUNDRED_KB < sz →
      handleMessage env st ⟨sz, p⟩ =
        ({ st with isAlive := true },
         [.logWarn "Received large message", .send (.plain "Message is too large")]) ∧
      (handleMessage env st ⟨sz, p⟩).1.rateLimiter = st.rateLimiter ∧
      ∀ e ∈ (handleMessage env st ⟨sz, p⟩).2, e.isExternalOp = false := by
  intro env st sz p hsz
  have he := handleMessage_oversized env st sz p hsz
  refine ⟨he, by rw [he], ?_⟩
  rw [he]
  simp [Effect.isExternalOp]

/-- Witness for C5: a frame one byte over the ceiling, regardless of its
JSON content, is rejected with the plain diagnostic and consumes no
budget. -/
theorem c5_oversized_frame_witness :
    handleMessage envOk ⟨true, true, ⟨10, 0⟩⟩ ⟨FOUR_HUNDRED_KB + 1, some ⟨"r1", "Insert"⟩⟩ =
      (⟨true, true, ⟨10, 0⟩⟩,
       [.logWarn "Received large message", .send (.plain "Message is too large")]) ∧
    (handleMessage envOk ⟨true, true, ⟨10, 0⟩⟩
      ⟨FOUR_HUNDRED_KB + 1, some ⟨"r1", "Insert"⟩⟩).1.rateLimiter = ⟨10, 0⟩ :=
  ⟨(c5_oversized_frame envOk ⟨true, true, ⟨10, 0⟩⟩ (FOUR_HUNDRED_KB + 1)
      (some ⟨"r1", "Insert"⟩) (by omega)).1,
   (c5_oversized_frame envOk ⟨true, true, ⟨10, 0⟩⟩ (FOUR_HUNDRED_KB + 1)
      (some ⟨"r1", "Insert"⟩) (by omega)).2.1⟩

/-- C6 counterexample: on the forgot-password sub-channel, a frame with an
action other than `ForgotPassword` does NOT terminate the socket — the
handler throws `Received unknown message`, which is caught and merely
logged (server.js lines 339-345); no terminate effect is emitted. -/
theorem c6_no_terminate_counterexample :
    Effect.terminate ∉ fpMessageEffects envOk ⟨20, some ⟨"r1", "SignOut"⟩⟩ ∧
    fpMessageEffects envOk ⟨20, some ⟨"r1", "SignOut"⟩⟩ = [fpCaughtLog] :=
  ⟨by decide, rfl⟩

/-- C6 amended: on the forgot-password sub-channel, no protocol violation
terminates the socket directly: a frame over 5 KB is answered with the
plain size diagnostic, a malformed frame is caught and logged, and an
action other than `ForgotPassword` throws and is caught and logged; in
all three cases no terminate effect is emitted (the socket is instead
left to be reaped by the heartbeat sweep, since its liveness flag is
never refreshed). -/
theorem c6_violation_handling :
    ∀ (env : Env) (msg : WsMsg),
      (FIVE_KB < msg.size →
        fpMessageEffects env msg =
          [.logWarn "Received large message over forgot-password",
           .send (.plain "Message is too large")]) ∧
      (msg.size ≤ FIVE_KB → msg.parsed = none → fpMessageEffects env msg = [fpCaughtLog]) ∧
      (∀ req, msg.size ≤ FIVE_KB → msg.parsed = some req →
        req.action ≠ "ForgotPassword" → fpMessageEffects env msg = [fpCaughtLog]) ∧
      ((FIVE_KB < msg.size ∨ msg.parsed = none ∨
        (∀ req, msg.parsed = some req → req.action ≠ "ForgotPassword")) →
        Effect.terminate ∉ fpMessageEffects env msg) := by
  intro env msg
  obtain ⟨sz, p⟩ := msg
  refine ⟨fun h => fpMessage_oversized env sz p h,
    fun h hp => by cases hp; exact fpMessage_malformed env sz h,
    fun req h hp ha => by cases hp; exact fpMessage_unknown env sz req h ha, ?_⟩
  intro hviol
  by_cases hsz : FIVE_KB < sz
  · rw [fpMessage_oversized env sz p hsz]
    simp [fpCaughtLog]
  · cases p with
    | none =>
        rw [fpMessage_malformed env sz (by omega)]
        simp [fpCaughtLog]
    | some req =>
        rcases hviol with h | h | h
        · exact absurd h hsz
        · exact absurd h (by simp)
        · rw [fpMessage_unknown env sz req (by omega) (h req rfl)]
          simp [fpCaughtLog]

/-- Witness for C6 amended at three concrete violations: an oversized
frame, a malformed frame, and an unknown-action frame. -/
theorem c6_violation_handling_witness :
    fpMessageEffects envOk ⟨FIVE_KB + 1, none⟩ =
      [.logWarn "Received large message over forgot-password",
       .send (.plain "Message is too large")] ∧
    fpMessageEffects envOk ⟨20, none⟩ = [fpCaughtLog] ∧
    fpMessageEffects envOk ⟨20, some ⟨"r1", "Insert"⟩⟩ = [fpCaughtLog] ∧
    Effect.terminate ∉ fpMessageEffects envOk ⟨FIVE_KB + 1, none⟩ :=
  ⟨(c6_violation_handling envOk ⟨FIVE_KB + 1, none⟩).1 (by decide),
   (c6_violation_handling envOk ⟨20, none⟩).2.1 (by decide) rfl,
   (c6_violation_handling envOk ⟨20, some ⟨"r1", "Insert"⟩⟩).2.2.1 ⟨"r1", "Insert"⟩
     (by decide) rfl (by decide),
   (c6_violation_handling envOk ⟨FIVE_KB + 1, none⟩).2.2.2 (Or.inl (by decide))⟩

/-- C7: the main-channel handler never terminates the connection; and when
the external call dispatched for a counted message throws, the error is
caught and logged (`Error in Websocket handling message`) and no response
of any kind is sent back for that request. -/
theorem c7_internal_error_swallowed :
    (∀ (env : Env) (st : ConnState) (msg : WsMsg),
      Effect.terminate ∉ (handleMessage env st msg).2) ∧
    (∀ (env : Env) (st : ConnState) (sz : Nat) (req : Request),
      sz ≤ FOUR_HUNDRED_KB → req.action ≠ "Pong" →
      st.rateLimiter.atCapacity = false →
      dispatchThrows env st.keyValidated req.action →
      caughtLog ∈ (handleMessage env st ⟨sz, some req⟩).2 ∧
      ∀ m : OutMsg, Effect.send m ∉ (handleMessage env st ⟨sz, some req⟩).2) := by
  constructor
  · exact handleMessage_noTerminate
  · intro env st sz req hsz hp hcap hthrow
    rw [handleMessage_counted env st sz req hsz hp]
    obtain ⟨c, hext, heq⟩ := counted_throws env { st with isAlive := true } req hcap hthrow
    rw [heq]
    refine ⟨by simp, ?_⟩
    intro m
    cases c <;> simp_all [Effect.isExternalOp, recvLog, caughtLog]

/-- Witness for C7: with a database layer that throws, an `Insert` on a
validated connection produces only the receipt log, the call, and the
caught-error log — no response and no termination. -/
theorem c7_internal_error_swallowed_witness :
    Effect.terminate ∉
      (handleMessage envThrow ⟨true, true, ⟨10, 0⟩⟩ ⟨40, some ⟨"r1", "Insert"⟩⟩).2 ∧
    caughtLog ∈
      (handleMessage envThrow ⟨true, true, ⟨10, 0⟩⟩ ⟨40, some ⟨"r1", "Insert"⟩⟩).2 ∧
    ∀ m : OutMsg,
      Effect.send m ∉
        (handleMessage envThrow ⟨true, true, ⟨10, 0⟩⟩ ⟨40, some ⟨"r1", "Insert"⟩⟩).2 :=
  ⟨c7_internal_error_swallowed.1 envThrow ⟨true, true, ⟨10, 0⟩⟩ ⟨40, some ⟨"r1", "Insert"⟩⟩,
   (c7_internal_error_swallowed.2 envThrow ⟨true, true, ⟨10, 0⟩⟩ 40 ⟨"r1", "Insert"⟩
      (by decide) (by decide) rfl
      (Or.inr (Or.inr ⟨rfl, Or.inr (Or.inr (Or.inr (Or.inl ⟨Or.inl rfl, rfl⟩)))⟩))).1,
   (c7_internal_error_swallowed.2 envThrow ⟨true, true, ⟨10, 0⟩⟩ 40 ⟨"r1", "Insert"⟩
      (by decide) (by decide) rfl
      (Or.inr (Or.inr ⟨rfl, Or.inr (Or.inr (Or.inr (Or.inl ⟨Or.inl rfl, rfl⟩)))⟩))).2⟩

/-- C8: one heartbeat sweep step terminates a connection whose liveness
flag is false and otherwise clears the flag and sends a `Ping`; hence a
live connection with no inbound traffic between two consecutive sweeps is
terminated at the second, while one that receives any message between the
sweeps (every main-channel message sets liveness) is sent a `Ping`
instead. -/
theorem c8_heartbeat_sweep :
    (∀ st : ConnState, st.isAlive = false → sweepConn st = (st, [.terminate])) ∧
    (∀ st : ConnState, st.isAlive = true →
      sweepConn st = ({ st with isAlive := false }, [.send .ping])) ∧
    (∀ st : ConnState, st.isAlive = true →
      (sweepConn (sweepConn st).1).2 = [.terminate]) ∧
    (∀ (env : Env) (st : ConnState) (msgs : List WsMsg), msgs ≠ [] →
      (sweepConn (runMsgs env (sweepConn st).1 msgs)).2 = [.send .ping]) := by
  refine ⟨?_, ?_, ?_, ?_⟩
  · intro st h
    obtain ⟨a, k, rl⟩ := st
    cases h
    rfl
  · intro st h
    obtain ⟨a, k, rl⟩ := st
    cases h
    rfl
  · intro st h
    obtain ⟨a, k, rl⟩ := st
    cases h
    rfl
  · intro env st msgs hne
    exact sweepConn_snd_of_alive _ (runMsgs_isAlive env msgs (sweepConn st).1 hne)

/-- Witness for C8: a silent validated connection is terminated at the
second sweep; one that sends a message (here a `Pong`) between the sweeps
is pinged again instead. -/
theorem c8_heartbeat_sweep_witness :
    sweepConn ⟨false, true, ⟨10, 0⟩⟩ = (⟨false, true, ⟨10, 0⟩⟩, [.terminate]) ∧
    sweepConn ⟨true, true, ⟨10, 0⟩⟩ = (⟨false, true, ⟨10, 0⟩⟩, [.send .ping]) ∧
    (sweepConn (sweepConn ⟨true, true, ⟨10, 0⟩⟩).1).2 = [.terminate] ∧
    (sweepConn (runMsgs envOk (sweepConn ⟨true, true, ⟨10, 0⟩⟩).1
        [⟨10, some ⟨"r1", "Pong"⟩⟩])).2 = [.send .ping] :=
  ⟨c8_heartbeat_sweep.1 ⟨false, true, ⟨10, 0⟩⟩ rfl,
   c8_heartbeat_sweep.2.1 ⟨true, true, ⟨10, 0⟩⟩ rfl,
   c8_heartbeat_sweep.2.2.1 ⟨true, true, ⟨10, 0⟩⟩ rfl,
   c8_heartbeat_sweep.2.2.2 envOk ⟨true, true, ⟨10, 0⟩⟩ [⟨10, some ⟨"r1", "Pong"⟩⟩]
     (by decide)⟩

/-- C9: a counted main-channel message on a validated connection whose
action is outside the recognized set is logged as an error and answered
with an inline plain-text diagnostic naming the action, and the
connection is not terminated. -/
theorem c9_unknown_action_reply :
    ∀ (env : Env) (st : ConnState) (sz : Nat) (req : Request),
      sz ≤ FOUR_HUNDRED_KB →
      st.rateLimiter.atCapacity = false → st.keyValidated = true →
      req.action ∉ recognizedActions →
      (handleMessage env st ⟨sz, some req⟩).2 =
        [recvLog, .logError "Received unknown action over WebSocket",
         .send (.plain ("Received unkown action " ++ req.action))] ∧
      Effect.terminate ∉ (handleMessage env st ⟨sz, some req⟩).2 := by
  intro env st sz req hsz hcap hkv hnot
  have hp : req.action ≠ "Pong" := by
    intro h
    exact hnot (by rw [h]; exact List.mem_cons_self _ _)
  have hc := handleMessage_counted env st sz req hsz hp
  have he := counted_unknown env { st with isAlive := true } req hcap hkv hnot
  refine ⟨by rw [hc, he], ?_⟩
  rw [hc, he]
  simp [recvLog]

/-- Witness for C9: action `Frobnicate` on a validated connection gets the
logged error and the inline diagnostic naming it. -/
theorem c9_unknown_action_reply_witness :
    (handleMessage envOk ⟨true, true, ⟨10, 0⟩⟩ ⟨30, some ⟨"r1", "Frobnicate"⟩⟩).2 =
      [recvLog, .logError "Received unknown action over WebSocket",
       .send (.plain "Received unkown action Frobnicate")] ∧
    Effect.terminate ∉
      (handleMessage envOk ⟨true, true, ⟨10, 0⟩⟩ ⟨30, some ⟨"r1", "Frobnicate"⟩⟩).2 :=
  c9_unknown_action_reply envOk ⟨true, true, ⟨10, 0⟩⟩ 30 ⟨"r1", "Frobnicate"⟩
    (by decide) rfl rfl (by decide)

/-- C10: the forgot-password message handler never changes the liveness
flag (it is set to true only at connection open), so for any inbound
traffic whatsoever the first heartbeat sweep sends a `Ping` and clears
the flag, and the second sweep terminates the socket. -/
theorem c10_forgot_password_reaped :
    (∀ (env : Env) (st : FpState) (msg : WsMsg), (fpHandleMessage env st msg).1 = st) ∧
    (∀ (env : Env) (msgs1 msgs2 : List WsMsg),
      (sweepFp (fpRunMsgs env fpOpen msgs1)).2 = [.send .ping] ∧
      (sweepFp (fpRunMsgs env (sweepFp (fpRunMsgs env fpOpen msgs1)).1 msgs2)).2 =
        [.terminate]) := by
  refine ⟨fun env st msg => rfl, fun env msgs1 msgs2 => ?_⟩
  rw [fpRunMsgs_eq env msgs1 fpOpen]
  rw [fpRunMsgs_eq env msgs2]
  exact ⟨rfl, rfl⟩

end Userbase
